import Mathlib

/-!
Shallow embedding of the orchestration workflow of `src/main.py` (the `analyze`
POST handler) together with the small helpers it uses, and of the pieces of
`src/gemini.py` the workflow observes.  External collaborators
(`parse_question_with_llm`, `run_python_code`, `answer_with_data`, the result
file on disk) are modelled as oracles indexed by call number; the workflow is a
pure function from the oracle environment and the question text to a trace of
the calls it made plus a terminal outcome.  An exception that the handler does
not catch is modelled as `Except.error`.
-/

/-- Model of a Python value as far as the orchestrator observes one: the
`questions` entry of a plan, and execution `output` entries.  `str()` coercion
is `pyStr`. -/
inductive PyVal where
  | none
  | str (s : String)
  | list (xs : List String)
deriving DecidableEq, Repr

/-- Python single-quote character, used by `repr` of strings inside lists. -/
def pyQuote : String := String.singleton (Char.ofNat 39)

/-- Python `str()` coercion on the modelled values: `str(None) = "None"`,
strings pass through, lists render as their `repr`. -/
def pyStr : PyVal → String
  | PyVal.none => "None"
  | PyVal.str s => s
  | PyVal.list xs =>
      "[" ++ String.intercalate ", " (xs.map (fun x => pyQuote ++ x ++ pyQuote)) ++ "]"

/-- Helper for `pyWords`: walks the character list accumulating the current
word (reversed); mirrors CPython `str.split()` with no separator argument,
which splits on runs of whitespace and never yields empty words. -/
def pySplitAux : List Char → List Char → List String
  | [], cur => if cur.isEmpty then [] else [String.mk cur.reverse]
  | c :: rest, cur =>
      if c.isWhitespace then
        if cur.isEmpty then pySplitAux rest []
        else String.mk cur.reverse :: pySplitAux rest []
      else pySplitAux rest (c :: cur)

/-- Python `s.split()`: the whitespace-separated words of `s`. -/
def pyWords (s : String) : List String := pySplitAux s.data []

/-- Python list slice `l[-n:]`.  For `n = 0`, `l[-0:]` is `l[0:]`, the whole
list; for `n ≥ 1` it is the last `min n l.length` elements. -/
def pySliceLastN (l : List String) (n : Nat) : List String :=
  if n = 0 then l else l.drop (l.length - n)

/-- The function `last_n_words` of `src/main.py` lines 32-36:
`' '.join(str(s).split()[-n:])`.  The source gives `n` the default value 25;
every call site in the orchestrator passes 50 explicitly.  The `str(s)`
coercion is applied by callers via `pyStr` where the argument is not already a
string. -/
def last_n_words (s : String) (n : Nat) : String :=
  String.intercalate " " (pySliceLastN (pyWords s) n)

/-- Model of a JSON value returned by a planner call, as far as the
orchestrator inspects it: whether it is a dict, and the values under the keys
`code`, `libraries` and `questions` when present. -/
inductive PyObj where
  | nonDict
  | dict (code : Option String) (libraries : Option (List String)) (questions : Option PyVal)
deriving DecidableEq, Repr

/-- The acceptance test `isinstance(response, dict) and "code" in response`
used at `src/main.py` lines 134, 162 and 183. -/
def isAccepted : PyObj → Bool
  | PyObj.nonDict => false
  | PyObj.dict c _ _ => c.isSome

/-- Python `response["code"]`, read only after acceptance. -/
def getCode : PyObj → String
  | PyObj.nonDict => ""
  | PyObj.dict c _ _ => c.getD ""

/-- Python `response.get("libraries", [])`. -/
def getLibraries : PyObj → List String
  | PyObj.nonDict => []
  | PyObj.dict _ l _ => l.getD []

/-- Python `response.get("questions")`: the value under `questions`, or `None`
when the key is absent. -/
def getQuestions : PyObj → PyVal
  | PyObj.nonDict => PyVal.none
  | PyObj.dict _ _ q => q.getD PyVal.none

/-- Result of one planner call: either the coroutine raised an exception with
the given message, or it returned a value. -/
inductive PlanCall where
  | raise (msg : String)
  | ret (obj : PyObj)
deriving DecidableEq, Repr

/-- Result dict of one `run_python_code` call: the values the orchestrator
reads with `.get("code")` and `.get("output")`. -/
structure ExecResult where
  code : Option Int
  output : PyVal
deriving DecidableEq, Repr

/-- The success test: the orchestrator treats an execution as successful
exactly when `execution_result.get("code") != 1` is false. -/
def execSuccess (r : ExecResult) : Bool := r.code = some 1

/-- State of `result.json` in the request folder when step 8 reads it:
absent (`FileNotFoundError`), present but not valid JSON (`JSONDecodeError`),
or present and parsing to the payload `data`. -/
inductive ResultFile where
  | missing
  | invalid
  | valid (data : String)
deriving DecidableEq, Repr

/-- Oracle environment for one run: the response of the k-th call to each
collaborator, and the state of the result file at step 8. -/
structure Env where
  planResp : Nat → PlanCall
  execResp : Nat → ExecResult
  ansResp : Nat → PlanCall
  resultFile : ResultFile

/-- Trace of the collaborator calls a run makes, in order: the
`question_text` argument of each `parse_question_with_llm` call, the
`(code, libraries)` argument of each `run_python_code` call, and the
`question_text` argument of each `answer_with_data` call. -/
structure Trace where
  planArgs : List String
  execArgs : List (String × List String)
  ansArgs : List PyVal
deriving DecidableEq, Repr

/-- Terminal outcome of the handler (`src/main.py` lines 143-215); each
constructor corresponds to one `return JSONResponse(...)` of the workflow
proper. -/
inductive Outcome where
  | planningExhausted
  | executionExhausted
  | analysisPlanningExhausted
  | finalExecutionFailed (details : PyVal)
  | resultMissing
  | resultMalformed
  | complete (data : String)
deriving DecidableEq, Repr

/-- HTTP status code attached to each outcome. -/
def httpStatus : Outcome → Nat
  | Outcome.complete _ => 200
  | _ => 500

/-- The `message` string of the JSON body returned with each failure outcome
(`Outcome.complete` returns the payload itself and has no message). -/
def httpMessage : Outcome → String
  | Outcome.planningExhausted => "Failed to get valid plan from LLM."
  | Outcome.executionExhausted => "Failed to execute the generated code."
  | Outcome.analysisPlanningExhausted => "Failed to get final answer logic from LLM."
  | Outcome.finalExecutionFailed _ => "Final code execution failed."
  | Outcome.resultMissing => "Result file not found."
  | Outcome.resultMalformed => "Result file is not valid JSON."
  | Outcome.complete _ => ""

/-- Result of the step 3 loop: the (possibly grown) `question_text`, the
index of the next planner call, the arguments of the planner calls made, and
the accepted response if any. -/
structure Stage1Out where
  question_text : String
  nextPlan : Nat
  args : List String
  response : Option PyObj
deriving Repr

/-- Step 3 loop of `src/main.py` lines 124-141, with fuel = remaining
attempts (`max_attempts = 3`).  On an exception the digest of the last 50
words of the error is appended to `question_text`; on a malformed response
nothing is appended and the response is discarded. -/
def stage1 (env : Env) : Nat → String → Nat → List String → Stage1Out
  | 0, qt, ci, tr => Stage1Out.mk qt ci tr Option.none
  | Nat.succ k, qt, ci, tr =>
      match env.planResp ci with
      | PlanCall.raise e =>
          let qt2 := qt ++ "\n\nPrevious attempt failed with error: " ++ last_n_words e 50
          stage1 env k qt2 (ci + 1) (tr ++ [qt])
      | PlanCall.ret r =>
          if isAccepted r then Stage1Out.mk qt (ci + 1) (tr ++ [qt]) (Option.some r)
          else stage1 env k qt (ci + 1) (tr ++ [qt])

/-- State carried by the step 4 retry loop: the current `execution_result`
and `response` variables, the next call indices, and the accumulated call
traces. -/
structure Stage2Out where
  execution_result : ExecResult
  response : PyObj
  nextPlan : Nat
  nextExec : Nat
  planArgsAcc : List String
  execArgsAcc : List (String × List String)
deriving Repr

/-- Step 4 retry loop of `src/main.py` lines 152-170, with fuel = `3 - count`.
`qt` is the `question_text` fixed at loop entry.  The re-planning call at line
159 is not inside a `try`, so a raised exception propagates as
`Except.error`.  A malformed re-planning response increments the counter and
continues without executing, but still overwrites `response`. -/
def stage2Loop (env : Env) (qt : String) :
    Nat → ExecResult → PyObj → Nat → Nat → List String → List (String × List String) →
    Except String Stage2Out
  | 0, er, resp, pci, eci, ptr, etr => Except.ok (Stage2Out.mk er resp pci eci ptr etr)
  | Nat.succ k, er, resp, pci, eci, ptr, etr =>
      if execSuccess er then Except.ok (Stage2Out.mk er resp pci eci ptr etr)
      else
        let fb := last_n_words (pyStr er.output) 50
        let nqt := qt ++ "\n\nThe previous code failed with this error: " ++ fb ++
          ". Please provide a corrected version."
        match env.planResp pci with
        | PlanCall.raise e => Except.error e
        | PlanCall.ret r =>
            if isAccepted r then
              stage2Loop env qt k (env.execResp eci) r (pci + 1) (eci + 1)
                (ptr ++ [nqt]) (etr ++ [(getCode r, getLibraries r)])
            else
              stage2Loop env qt k er r (pci + 1) eci (ptr ++ [nqt]) etr

/-- Result of the step 5 loop: the index of the next `answer_with_data`
call, the arguments of the calls made, and the accepted response if any. -/
structure Stage3Out where
  nextAns : Nat
  args : List PyVal
  gpt_ans : Option PyObj
deriving Repr

/-- Step 5 loop of `src/main.py` lines 177-189, with fuel = remaining
attempts (`max_attempts = 3`).  On an exception, `response_questions` becomes
the string `str(response_questions) + feedback`; on a malformed response it is
left unchanged. -/
def stage3 (env : Env) : Nat → PyVal → Nat → List PyVal → Stage3Out
  | 0, _, ai, atr => Stage3Out.mk ai atr Option.none
  | Nat.succ k, rq, ai, atr =>
      match env.ansResp ai with
      | PlanCall.raise e =>
          let rq2 := PyVal.str (pyStr rq ++ "\n\nPrevious attempt failed with error: " ++
            last_n_words e 50)
          stage3 env k rq2 (ai + 1) (atr ++ [rq])
      | PlanCall.ret r =>
          if isAccepted r then Stage3Out.mk (ai + 1) (atr ++ [rq]) (Option.some r)
          else stage3 env k rq (ai + 1) (atr ++ [rq])

/-- The straight-line tail of the workflow after the step 4 loop,
`src/main.py` lines 172-215: the exhaustion check, step 5 analysis planning,
step 7 single final execution, and step 8 result reading. -/
def afterExec (env : Env) (s2 : Stage2Out) : Trace × Outcome :=
  if execSuccess s2.execution_result then
    match stage3 env 3 (getQuestions s2.response) 0 [] with
    | Stage3Out.mk _ atr Option.none =>
        (Trace.mk s2.planArgsAcc s2.execArgsAcc atr, Outcome.analysisPlanningExhausted)
    | Stage3Out.mk _ atr (Option.some ans) =>
        let fr := env.execResp s2.nextExec
        let etr3 := s2.execArgsAcc ++ [(getCode ans, getLibraries ans)]
        if execSuccess fr then
          match env.resultFile with
          | ResultFile.missing =>
              (Trace.mk s2.planArgsAcc etr3 atr, Outcome.resultMissing)
          | ResultFile.invalid =>
              (Trace.mk s2.planArgsAcc etr3 atr, Outcome.resultMalformed)
          | ResultFile.valid d =>
              (Trace.mk s2.planArgsAcc etr3 atr, Outcome.complete d)
        else
          (Trace.mk s2.planArgsAcc etr3 atr, Outcome.finalExecutionFailed fr.output)
  else
    (Trace.mk s2.planArgsAcc s2.execArgsAcc [], Outcome.executionExhausted)

/-- The workflow core of the `analyze` handler, `src/main.py` lines 124-215:
step 3 planning (3 attempts), step 4 initial execution plus retry loop
(`count < 3`), then the straight-line tail `afterExec`.  `Except.error e`
models the exception `e` escaping the handler uncaught. -/
def analyze (env : Env) (question_text : String) : Except String (Trace × Outcome) :=
  match stage1 env 3 question_text 0 [] with
  | Stage1Out.mk _ _ ptr Option.none =>
      Except.ok (Trace.mk ptr [] [], Outcome.planningExhausted)
  | Stage1Out.mk qt pci ptr (Option.some resp) =>
      (stage2Loop env qt 3 (env.execResp 0) resp pci 1
        ptr [(getCode resp, getLibraries resp)]).map (afterExec env)

/-- The three-way mapping of step 8 as the spec states it: a readable,
parseable result file becomes the success payload, a missing file the
`ResultMissing` failure, an unparseable file the `ResultMalformed` failure. -/
def readResult : ResultFile → Outcome
  | ResultFile.missing => Outcome.resultMissing
  | ResultFile.invalid => Outcome.resultMalformed
  | ResultFile.valid d => Outcome.complete d

/-! Concrete collaborator behaviours used to instantiate runs. -/

/-- A well-formed plan response: code, libraries and questions all present. -/
def samplePlan : PyObj :=
  PyObj.dict (Option.some "CODE") (Option.some ["pandas"]) (Option.some (PyVal.list ["q1"]))

/-- A well-formed analysis response. -/
def sampleAns : PyObj := PyObj.dict (Option.some "ACODE") (Option.some []) Option.none

/-- A failing execution result (`code = 0`). -/
def failExec : ExecResult := ExecResult.mk (Option.some 0) (PyVal.str "bad out")

/-- A successful execution result (`code = 1`). -/
def okExec : ExecResult := ExecResult.mk (Option.some 1) (PyVal.str "done")

/-- A string of 26 one-letter words: longer than 25 words, shorter than 50. -/
def s26 : String := String.intercalate " " (List.replicate 26 "a")

/-- Environment whose planner always raises. -/
def envAllPlanRaise : Env :=
  Env.mk (fun _ => PlanCall.raise "boom") (fun _ => failExec)
    (fun _ => PlanCall.raise "boom") ResultFile.missing

/-- Environment whose planner always returns a valid plan and whose executor
always fails. -/
def envExecAlwaysFail : Env :=
  Env.mk (fun _ => PlanCall.ret samplePlan) (fun _ => failExec)
    (fun _ => PlanCall.ret sampleAns) ResultFile.missing

/-- Environment where the initial plan is accepted, every execution fails,
and the re-planning call inside the retry loop raises. -/
def envLoopRaise : Env :=
  Env.mk (fun i => if i = 0 then PlanCall.ret samplePlan else PlanCall.raise "replan crash")
    (fun _ => failExec) (fun _ => PlanCall.ret sampleAns) ResultFile.missing

/-- Environment exercising all three digest-append sites in one run:
the first planner call raises `e1`, the first execution fails with output
`o`, the first analysis call raises `e3`; everything else succeeds. -/
def envDigests (e1 o e3 : String) : Env :=
  Env.mk (fun i => if i = 0 then PlanCall.raise e1 else PlanCall.ret samplePlan)
    (fun i => if i = 0 then ExecResult.mk (Option.some 0) (PyVal.str o) else okExec)
    (fun i => if i = 0 then PlanCall.raise e3 else PlanCall.ret sampleAns)
    (ResultFile.valid "RESULT")

/-- Environment whose first planner response is malformed (not a dict),
then valid; everything else succeeds. -/
def envFirstMalformed : Env :=
  Env.mk (fun i => if i = 0 then PlanCall.ret PyObj.nonDict else PlanCall.ret samplePlan)
    (fun _ => okExec) (fun _ => PlanCall.ret sampleAns) (ResultFile.valid "RESULT")

/-- Environment whose analysis planner always returns a malformed response. -/
def envAnsMalformed : Env :=
  Env.mk (fun _ => PlanCall.ret samplePlan) (fun _ => okExec)
    (fun _ => PlanCall.ret PyObj.nonDict) (ResultFile.valid "RESULT")

/-- Environment whose analysis planner raises on attempt 1, returns a
malformed response on attempt 2, and raises again on attempt 3. -/
def envAnsMixed (e1 e3 : String) : Env :=
  Env.mk (fun _ => PlanCall.ret samplePlan) (fun _ => okExec)
    (fun i => if i = 0 then PlanCall.raise e1
      else if i = 1 then PlanCall.ret PyObj.nonDict else PlanCall.raise e3)
    (ResultFile.valid "RESULT")

/-- Environment where everything succeeds except the final execution. -/
def envFinalFail : Env :=
  Env.mk (fun _ => PlanCall.ret samplePlan)
    (fun i => if i = 0 then okExec else failExec)
    (fun _ => PlanCall.ret sampleAns) (ResultFile.valid "RESULT")

/-- Happy-path environment, parameterized by the state of the result file. -/
def envHappy (rf : ResultFile) : Env :=
  Env.mk (fun _ => PlanCall.ret samplePlan) (fun _ => okExec)
    (fun _ => PlanCall.ret sampleAns) rf

/-- Environment whose accepted plan has no `questions` entry and whose first
analysis call raises `e`. -/
def envNoQuestions (e : String) : Env :=
  Env.mk (fun _ => PlanCall.ret (PyObj.dict (Option.some "CODE") (Option.some []) Option.none))
    (fun _ => okExec)
    (fun i => if i = 0 then PlanCall.raise e else PlanCall.ret sampleAns)
    (ResultFile.valid "RESULT")

/-! Step lemmas for the three loops, used to unfold runs under hypotheses
about individual oracle responses. -/

/-- A step 3 attempt whose planner call raises appends the 50-word digest to
the question text and retries. -/
theorem stage1_raise (env : Env) (k : Nat) (qt : String) (ci : Nat) (tr : List String)
    (e : String) (h : env.planResp ci = PlanCall.raise e) :
    stage1 env (k + 1) qt ci tr =
      stage1 env k (qt ++ "\n\nPrevious attempt failed with error: " ++ last_n_words e 50)
        (ci + 1) (tr ++ [qt]) := by
  simp only [stage1, h]

/-- A step 3 attempt whose planner call returns an accepted dict ends the
loop. -/
theorem stage1_accept (env : Env) (k : Nat) (qt : String) (ci : Nat) (tr : List String)
    (r : PyObj) (h : env.planResp ci = PlanCall.ret r) (ha : isAccepted r = true) :
    stage1 env (k + 1) qt ci tr = Stage1Out.mk qt (ci + 1) (tr ++ [qt]) (Option.some r) := by
  simp only [stage1, h, ha, if_true]

/-- A step 3 attempt whose planner call returns a malformed response retries
with the question text unchanged. -/
theorem stage1_malformed (env : Env) (k : Nat) (qt : String) (ci : Nat) (tr : List String)
    (r : PyObj) (h : env.planResp ci = PlanCall.ret r) (ha : isAccepted r = false) :
    stage1 env (k + 1) qt ci tr = stage1 env k qt (ci + 1) (tr ++ [qt]) := by
  simp only [stage1, h, ha]
  rfl

/-- The step 4 loop exits as soon as the current execution result is a
success. -/
theorem stage2Loop_success (env : Env) (qt : String) (k : Nat) (er : ExecResult)
    (resp : PyObj) (pci eci : Nat) (ptr : List String) (etr : List (String × List String))
    (hs : execSuccess er = true) :
    stage2Loop env qt (k + 1) er resp pci eci ptr etr =
      Except.ok (Stage2Out.mk er resp pci eci ptr etr) := by
  simp only [stage2Loop, hs, if_true]

/-- A step 4 iteration whose re-planning call raises propagates the exception
uncaught. -/
theorem stage2Loop_raise (env : Env) (qt : String) (k : Nat) (er : ExecResult)
    (resp : PyObj) (pci eci : Nat) (ptr : List String) (etr : List (String × List String))
    (e : String) (hs : execSuccess er = false) (h : env.planResp pci = PlanCall.raise e) :
    stage2Loop env qt (k + 1) er resp pci eci ptr etr = Except.error e := by
  simp only [stage2Loop, hs, h]
  rfl

/-- A step 4 iteration whose re-planning call returns an accepted dict
executes the new code and loops. -/
theorem stage2Loop_accept (env : Env) (qt : String) (k : Nat) (er : ExecResult)
    (resp : PyObj) (pci eci : Nat) (ptr : List String) (etr : List (String × List String))
    (r : PyObj) (hs : execSuccess er = false) (h : env.planResp pci = PlanCall.ret r)
    (ha : isAccepted r = true) :
    stage2Loop env qt (k + 1) er resp pci eci ptr etr =
      stage2Loop env qt k (env.execResp eci) r (pci + 1) (eci + 1)
        (ptr ++ [qt ++ "\n\nThe previous code failed with this error: " ++
          last_n_words (pyStr er.output) 50 ++ ". Please provide a corrected version."])
        (etr ++ [(getCode r, getLibraries r)]) := by
  simp only [stage2Loop, hs, h, ha]
  rfl

/-- A step 4 iteration whose re-planning call returns a malformed response
consumes a retry without executing; `response` is still overwritten. -/
theorem stage2Loop_malformed (env : Env) (qt : String) (k : Nat) (er : ExecResult)
    (resp : PyObj) (pci eci : Nat) (ptr : List String) (etr : List (String × List String))
    (r : PyObj) (hs : execSuccess er = false) (h : env.planResp pci = PlanCall.ret r)
    (ha : isAccepted r = false) :
    stage2Loop env qt (k + 1) er resp pci eci ptr etr =
      stage2Loop env qt k er r (pci + 1) eci
        (ptr ++ [qt ++ "\n\nThe previous code failed with this error: " ++
          last_n_words (pyStr er.output) 50 ++ ". Please provide a corrected version."])
        etr := by
  simp only [stage2Loop, hs, h, ha]
  rfl

/-- A step 5 attempt whose call raises stringifies `response_questions` and
appends the 50-word digest before retrying. -/
theorem stage3_raise (env : Env) (k : Nat) (rq : PyVal) (ai : Nat) (atr : List PyVal)
    (e : String) (h : env.ansResp ai = PlanCall.raise e) :
    stage3 env (k + 1) rq ai atr =
      stage3 env k
        (PyVal.str (pyStr rq ++ "\n\nPrevious attempt failed with error: " ++ last_n_words e 50))
        (ai + 1) (atr ++ [rq]) := by
  simp only [stage3, h]

/-- A step 5 attempt whose call returns an accepted dict ends the loop. -/
theorem stage3_accept (env : Env) (k : Nat) (rq : PyVal) (ai : Nat) (atr : List PyVal)
    (r : PyObj) (h : env.ansResp ai = PlanCall.ret r) (ha : isAccepted r = true) :
    stage3 env (k + 1) rq ai atr = Stage3Out.mk (ai + 1) (atr ++ [rq]) (Option.some r) := by
  simp only [stage3, h, ha, if_true]

/-- A step 5 attempt whose call returns a malformed response retries with
`response_questions` unchanged. -/
theorem stage3_malformed (env : Env) (k : Nat) (rq : PyVal) (ai : Nat) (atr : List PyVal)
    (r : PyObj) (h : env.ansResp ai = PlanCall.ret r) (ha : isAccepted r = false) :
    stage3 env (k + 1) rq ai atr = stage3 env k rq (ai + 1) (atr ++ [rq]) := by
  simp only [stage3, h, ha]
  rfl

/-- Mapping a function over an `Except` preserves exactly the errors. -/
theorem exceptMap_eq_error {α β γ : Type} (f : β → γ) (x : Except α β) (e : α) :
    x.map f = Except.error e ↔ x = Except.error e := by
  cases x <;> simp [Except.map]

/-- The step 4 loop can only fail with an exception that some planner call
raised: the executor and the loop logic never raise. -/
theorem stage2Loop_error (env : Env) (qt : String) :
    ∀ (k : Nat) (er : ExecResult) (resp : PyObj) (pci eci : Nat) (ptr : List String)
      (etr : List (String × List String)) (e : String),
      stage2Loop env qt k er resp pci eci ptr etr = Except.error e →
      ∃ i, env.planResp i = PlanCall.raise e := by
  intro k
  induction k with
  | zero =>
      intro er resp pci eci ptr etr e h
      simp [stage2Loop] at h
  | succ n ih =>
      intro er resp pci eci ptr etr e h
      simp only [stage2Loop] at h
      split at h
      · cases h
      · split at h
        next heq => cases h; exact ⟨pci, heq⟩
        next r heq =>
          split at h
          · exact ih _ _ _ _ _ _ _ h
          · exact ih _ _ _ _ _ _ _ h

/-- C3: the claim that every collaborator failure at a retry point is
absorbed locally is false: an exception raised by the re-planning call inside
the execution retry loop escapes the orchestrator uncaught.  Concretely, when
the first plan is accepted, the first execution fails and the re-planning
call raises, the run ends as an unhandled exception, not a typed failure. -/
theorem C3_counterexample :
    analyze envLoopRaise "Q" = Except.error "replan crash" := by rfl

/-- C3 (amended): failures at the retry points of the two planning stages
(exceptions and malformed responses) and failure outcomes of the executor are
absorbed locally until the budget is exhausted, but an exception raised by
the re-planning call inside the execution retry loop propagates uncaught.
Formally: any uncaught error of a run is the message of an exception raised
by some planner call, and it can only happen after the first planning stage
has accepted a plan, that is, at the re-planning site inside the execution
retry loop. -/
theorem C3_uncaught_only_from_loop_replanning (env : Env) (q : String) (e : String)
    (h : analyze env q = Except.error e) :
    (∃ i, env.planResp i = PlanCall.raise e) ∧
    (stage1 env 3 q 0 []).response.isSome = true := by
  unfold analyze at h
  cases hs : stage1 env 3 q 0 [] with
  | mk qt pci ptr resp? =>
      rw [hs] at h
      cases resp? with
      | none => cases h
      | some resp =>
          have h2 : Except.map (afterExec env)
              (stage2Loop env qt 3 (env.execResp 0) resp pci 1 ptr
                [(getCode resp, getLibraries resp)]) = Except.error e := h
          exact ⟨stage2Loop_error env qt 3 _ _ _ _ _ _ e
            ((exceptMap_eq_error (afterExec env) _ e).mp h2), rfl⟩

/-- Witness for C3 (amended) at the concrete environment whose in-loop
re-planning call raises. -/
theorem C3_uncaught_only_from_loop_replanning_witness :
    (∃ i, envLoopRaise.planResp i = PlanCall.raise "replan crash") ∧
    (stage1 envLoopRaise 3 "Q" 0 []).response.isSome = true :=
  C3_uncaught_only_from_loop_replanning envLoopRaise "Q" "replan crash" rfl

/-- C4: if every first-stage planning call raises, the run makes exactly 3
planning attempts, appends the error digest to the question text after each,
never calls the executor, and ends as the planning-exhausted failure with
HTTP 500 and message `Failed to get valid plan from LLM.`. -/
theorem C4_planning_exhausted (env : Env) (q : String) (e : Nat → String)
    (h : ∀ i, i < 3 → env.planResp i = PlanCall.raise (e i)) :
    analyze env q = Except.ok (Trace.mk
      [q,
       q ++ "\n\nPrevious attempt failed with error: " ++ last_n_words (e 0) 50,
       q ++ "\n\nPrevious attempt failed with error: " ++ last_n_words (e 0) 50
         ++ "\n\nPrevious attempt failed with error: " ++ last_n_words (e 1) 50]
      [] [], Outcome.planningExhausted) ∧
    httpStatus Outcome.planningExhausted = 500 ∧
    httpMessage Outcome.planningExhausted = "Failed to get valid plan from LLM." := by
  refine ⟨?_, rfl, rfl⟩
  unfold analyze
  rw [stage1_raise env 2 q 0 [] (e 0) (h 0 (by omega))]
  rw [stage1_raise env 1 _ 1 _ (e 1) (h 1 (by omega))]
  rw [stage1_raise env 0 _ 2 _ (e 2) (h 2 (by omega))]
  rfl

/-- Witness for C4 at the environment whose planner always raises `boom`. -/
theorem C4_planning_exhausted_witness :
    analyze envAllPlanRaise "Q" = Except.ok (Trace.mk
      ["Q",
       "Q\n\nPrevious attempt failed with error: boom",
       "Q\n\nPrevious attempt failed with error: boom\n\nPrevious attempt failed with error: boom"]
      [] [], Outcome.planningExhausted) ∧
    httpStatus Outcome.planningExhausted = 500 ∧
    httpMessage Outcome.planningExhausted = "Failed to get valid plan from LLM." :=
  C4_planning_exhausted envAllPlanRaise "Q" (fun _ => "boom") (fun _ _ => rfl)

/-- C9: after the final execution succeeds, reading `result.json` has exactly
three outcomes and no retry: a readable, parseable file is returned as the
success payload; a missing file yields the `ResultMissing` failure with
message `Result file not found.`; a present but unparseable file yields the
`ResultMalformed` failure with message `Result file is not valid JSON.`.
The trace records exactly one analysis call and two executions: nothing is
retried whatever the file state. -/
theorem C9_result_reading (env : Env) (q : String) (p a : PyObj)
    (h0 : env.planResp 0 = PlanCall.ret p) (hp : isAccepted p = true)
    (he0 : execSuccess (env.execResp 0) = true)
    (ha0 : env.ansResp 0 = PlanCall.ret a) (haa : isAccepted a = true)
    (he1 : execSuccess (env.execResp 1) = true) :
    analyze env q = Except.ok (Trace.mk [q]
      [(getCode p, getLibraries p), (getCode a, getLibraries a)] [getQuestions p],
      readResult env.resultFile) ∧
    httpMessage Outcome.resultMissing = "Result file not found." ∧
    httpMessage Outcome.resultMalformed = "Result file is not valid JSON." ∧
    httpStatus Outcome.resultMissing = 500 ∧
    httpStatus Outcome.resultMalformed = 500 := by
  refine ⟨?_, rfl, rfl, rfl, rfl⟩
  have hA : analyze env q = Except.map (afterExec env)
      (stage2Loop env q 3 (env.execResp 0) p 1 1 [q] [(getCode p, getLibraries p)]) := by
    unfold analyze
    rw [stage1_accept env 2 q 0 [] p h0 hp]
    rfl
  rw [hA, stage2Loop_success env q 2 (env.execResp 0) p 1 1 [q] [(getCode p, getLibraries p)] he0]
  simp only [Except.map, afterExec, he0, he1, if_true,
    stage3_accept env 2 (getQuestions p) 0 [] a ha0 haa]
  cases hrf : env.resultFile <;> rfl

/-- Witness for C9 with an absent result file: the run ends as
`ResultMissing`. -/
theorem C9_result_reading_witness :
    analyze (envHappy ResultFile.missing) "Q" = Except.ok (Trace.mk ["Q"]
      [("CODE", ["pandas"]), ("ACODE", [])] [PyVal.list ["q1"]],
      Outcome.resultMissing) ∧
    httpMessage Outcome.resultMissing = "Result file not found." ∧
    httpMessage Outcome.resultMalformed = "Result file is not valid JSON." ∧
    httpStatus Outcome.resultMissing = 500 ∧
    httpStatus Outcome.resultMalformed = 500 :=
  C9_result_reading (envHappy ResultFile.missing) "Q" samplePlan sampleAns
    rfl rfl rfl rfl rfl rfl

/-- C5: the final (analysis-stage) execution is attempted exactly once:
whenever the workflow reaches step 7 with any loop state and the single final
execution fails, the run terminates immediately as `FinalExecutionFailed`
carrying that execution's output as diagnostic detail, the execution trace
grows by exactly one entry, and the analysis-planning trace is left unchanged
(neither stage is retried). -/
theorem C5_final_execution_single_attempt (env : Env) (s2 : Stage2Out)
    (na : Nat) (atr : List PyVal) (ans : PyObj)
    (hs : execSuccess s2.execution_result = true)
    (h3 : stage3 env 3 (getQuestions s2.response) 0 [] = Stage3Out.mk na atr (Option.some ans))
    (hf : execSuccess (env.execResp s2.nextExec) = false) :
    afterExec env s2 = (Trace.mk s2.planArgsAcc
      (s2.execArgsAcc ++ [(getCode ans, getLibraries ans)]) atr,
      Outcome.finalExecutionFailed (env.execResp s2.nextExec).output) ∧
    httpStatus (Outcome.finalExecutionFailed (env.execResp s2.nextExec).output) = 500 ∧
    httpMessage (Outcome.finalExecutionFailed (env.execResp s2.nextExec).output) =
      "Final code execution failed." := by
  refine ⟨?_, rfl, rfl⟩
  simp only [afterExec, hs, if_true, h3, hf]
  rfl

/-- Witness for C5 at the environment whose final execution fails, applied to
the loop state a first-try-success run produces. -/
theorem C5_final_execution_single_attempt_witness :
    afterExec envFinalFail
      (Stage2Out.mk okExec samplePlan 1 1 ["Q"] [("CODE", ["pandas"])]) =
      (Trace.mk ["Q"] [("CODE", ["pandas"]), ("ACODE", [])] [PyVal.list ["q1"]],
        Outcome.finalExecutionFailed (PyVal.str "bad out")) ∧
    httpStatus (Outcome.finalExecutionFailed (envFinalFail.execResp 1).output) = 500 ∧
    httpMessage (Outcome.finalExecutionFailed (envFinalFail.execResp 1).output) =
      "Final code execution failed." :=
  C5_final_execution_single_attempt envFinalFail
    (Stage2Out.mk okExec samplePlan 1 1 ["Q"] [("CODE", ["pandas"])])
    1 [PyVal.list ["q1"]] sampleAns rfl rfl rfl

/-- C10: when the last accepted plan has no `questions` entry, the analysis
planner is invoked with the null value (not an empty sequence), and after an
exception the retry feedback is built by stringifying that null value
(`str(None) = "None"`) before appending the error digest. -/
theorem C10_null_questions (env : Env) (q c e d : String) (lb : Option (List String))
    (a : PyObj)
    (h0 : env.planResp 0 = PlanCall.ret (PyObj.dict (Option.some c) lb Option.none))
    (he0 : execSuccess (env.execResp 0) = true)
    (ha0 : env.ansResp 0 = PlanCall.raise e)
    (ha1 : env.ansResp 1 = PlanCall.ret a) (haa : isAccepted a = true)
    (he1 : execSuccess (env.execResp 1) = true)
    (hrf : env.resultFile = ResultFile.valid d) :
    analyze env q = Except.ok (Trace.mk [q]
      [(c, lb.getD []), (getCode a, getLibraries a)]
      [PyVal.none,
       PyVal.str ("None" ++ "\n\nPrevious attempt failed with error: " ++ last_n_words e 50)],
      Outcome.complete d) ∧
    (PyVal.none : PyVal) ≠ PyVal.list [] := by
  refine ⟨?_, by decide⟩
  have hA : analyze env q = Except.map (afterExec env)
      (stage2Loop env q 3 (env.execResp 0) (PyObj.dict (Option.some c) lb Option.none) 1 1 [q]
        [(getCode (PyObj.dict (Option.some c) lb Option.none),
          getLibraries (PyObj.dict (Option.some c) lb Option.none))]) := by
    unfold analyze
    rw [stage1_accept env 2 q 0 [] (PyObj.dict (Option.some c) lb Option.none) h0 rfl]
    rfl
  rw [hA, stage2Loop_success env q 2 (env.execResp 0) (PyObj.dict (Option.some c) lb Option.none)
    1 1 [q] [(getCode (PyObj.dict (Option.some c) lb Option.none),
      getLibraries (PyObj.dict (Option.some c) lb Option.none))] he0]
  simp only [Except.map, afterExec, he0, he1, if_true, hrf,
    stage3_raise env 2 (getQuestions (PyObj.dict (Option.some c) lb Option.none)) 0 [] e ha0,
    stage3_accept env 1
      (PyVal.str (pyStr (getQuestions (PyObj.dict (Option.some c) lb Option.none)) ++
        "\n\nPrevious attempt failed with error: " ++ last_n_words e 50))
      1 ([] ++ [getQuestions (PyObj.dict (Option.some c) lb Option.none)]) a ha1 haa]
  rfl

/-- Witness for C10 at the environment whose plan lacks `questions` and whose
first analysis call raises `crash`. -/
theorem C10_null_questions_witness :
    analyze (envNoQuestions "crash") "Q" = Except.ok (Trace.mk ["Q"]
      [("CODE", []), ("ACODE", [])]
      [PyVal.none, PyVal.str ("None\n\nPrevious attempt failed with error: crash")],
      Outcome.complete "RESULT") ∧
    (PyVal.none : PyVal) ≠ PyVal.list [] :=
  C10_null_questions (envNoQuestions "crash") "Q" "CODE" "crash" "RESULT"
    (Option.some []) sampleAns rfl rfl rfl rfl rfl rfl rfl

/-- C7: the claim quantifies over every word count N ≥ 0, but at N = 0 the
Python slice `words[-0:]` is `words[0:]`, the whole list, so the function
returns every token instead of at most 0 tokens: `last_n_words "a b" 0`
evaluates to `"a b"`, not to the empty join of the last 0 tokens. -/
theorem C7_counterexample :
    last_n_words "a b" 0 = "a b" ∧
    last_n_words "a b" 0 ≠ String.intercalate " " (((pyWords "a b").reverse.take 0).reverse) := by
  constructor
  · rfl
  · decide

/-- C7 (amended): for every word count N ≥ 1 and every string S, the
error-digest function returns the last N whitespace-separated tokens of S in
their original order joined by single spaces, and those are at most N tokens;
at N = 0 it instead returns all tokens. -/
theorem C7_last_n_words (s : String) (n : Nat) (h : 1 ≤ n) :
    last_n_words s n = String.intercalate " " (((pyWords s).reverse.take n).reverse) ∧
    ((pyWords s).reverse.take n).reverse.length ≤ n := by
  constructor
  · unfold last_n_words pySliceLastN
    rw [if_neg (by omega), List.take_reverse, List.reverse_reverse]
  · rw [List.length_reverse, List.length_take]
    omega

/-- Witness for C7 (amended) at N = 2 on a three-word string. -/
theorem C7_last_n_words_witness :
    last_n_words "a b c" 2 =
      String.intercalate " " (((pyWords "a b c").reverse.take 2).reverse) ∧
    ((pyWords "a b c").reverse.take 2).reverse.length ≤ 2 :=
  C7_last_n_words "a b c" 2 (by omega)

/-- C8: the claim that a malformed first-stage planner response causes an
error digest to be appended to the question text, the same as a raised
exception does, is false: after a malformed first response the run retries
and completes with both planner calls made on the unchanged text `Q`,
whereas an exception append would have changed it. -/
theorem C8_counterexample :
    analyze envFirstMalformed "Q" = Except.ok (Trace.mk ["Q", "Q"]
      [("CODE", ["pandas"]), ("ACODE", [])] [PyVal.list ["q1"]],
      Outcome.complete "RESULT") ∧
    "Q" ++ "\n\nPrevious attempt failed with error: " ++ last_n_words "boom" 50 ≠ "Q" := by
  exact ⟨rfl, by decide⟩

/-- C8 (amended): during the first planning stage only a raised exception
appends an error digest to the question text; a malformed response (returned
without raising but lacking a code field) is discarded and the next attempt
is made with the question text unchanged. -/
theorem C8_malformed_no_digest (env : Env) (q : String) (r p : PyObj)
    (h0 : env.planResp 0 = PlanCall.ret r) (hm : isAccepted r = false)
    (h1 : env.planResp 1 = PlanCall.ret p) (hp : isAccepted p = true) :
    stage1 env 3 q 0 [] = Stage1Out.mk q 2 [q, q] (Option.some p) := by
  rw [stage1_malformed env 2 q 0 [] r h0 hm, stage1_accept env 1 q 1 _ p h1 hp]
  rfl

/-- Witness for C8 (amended) at the environment with a malformed then a valid
planner response. -/
theorem C8_malformed_no_digest_witness :
    stage1 envFirstMalformed 3 "Q" 0 [] =
      Stage1Out.mk "Q" 2 ["Q", "Q"] (Option.some samplePlan) :=
  C8_malformed_no_digest envFirstMalformed "Q" PyObj.nonDict samplePlan rfl rfl rfl rfl

/-- C6: the claim that on a failed analysis-planning attempt the error digest
is appended to the questions value is false for attempts that fail with a
malformed response: three malformed responses exhaust the stage while the
questions value passed to attempts 2 and 3 is identical to the value passed
to attempt 1 — no digest was appended after any of the failed attempts. -/
theorem C6_counterexample :
    analyze envAnsMalformed "Q" = Except.ok (Trace.mk ["Q"] [("CODE", ["pandas"])]
      [PyVal.list ["q1"], PyVal.list ["q1"], PyVal.list ["q1"]],
      Outcome.analysisPlanningExhausted) ∧
    [PyVal.list ["q1"], PyVal.list ["q1"], PyVal.list ["q1"]].get? 1 =
      [PyVal.list ["q1"], PyVal.list ["q1"], PyVal.list ["q1"]].get? 0 := ⟨rfl, rfl⟩

/-- C6 (amended): the analysis planning stage makes at most 3 attempts; an
attempt that fails with an exception appends the error digest to the
questions value (not to the original question text), while an attempt that
fails with a malformed response leaves the questions value unchanged; if all
3 attempts fail to produce a response containing a code field, the run ends
as the analysis-planning-exhausted failure (HTTP 500,
`Failed to get final answer logic from LLM.`) with zero calls to the final
execution stage. -/
theorem C6_analysis_planning_exhausted (env : Env) (q : String) (p m : PyObj)
    (e0 e2 : String)
    (h0 : env.planResp 0 = PlanCall.ret p) (hp : isAccepted p = true)
    (he0 : execSuccess (env.execResp 0) = true)
    (ha0 : env.ansResp 0 = PlanCall.raise e0)
    (ha1 : env.ansResp 1 = PlanCall.ret m) (hm : isAccepted m = false)
    (ha2 : env.ansResp 2 = PlanCall.raise e2) :
    analyze env q = Except.ok (Trace.mk [q] [(getCode p, getLibraries p)]
      [getQuestions p,
       PyVal.str (pyStr (getQuestions p) ++ "\n\nPrevious attempt failed with error: " ++
         last_n_words e0 50),
       PyVal.str (pyStr (getQuestions p) ++ "\n\nPrevious attempt failed with error: " ++
         last_n_words e0 50)],
      Outcome.analysisPlanningExhausted) ∧
    httpStatus Outcome.analysisPlanningExhausted = 500 ∧
    httpMessage Outcome.analysisPlanningExhausted =
      "Failed to get final answer logic from LLM." := by
  refine ⟨?_, rfl, rfl⟩
  have hA : analyze env q = Except.map (afterExec env)
      (stage2Loop env q 3 (env.execResp 0) p 1 1 [q] [(getCode p, getLibraries p)]) := by
    unfold analyze
    rw [stage1_accept env 2 q 0 [] p h0 hp]
    rfl
  rw [hA, stage2Loop_success env q 2 (env.execResp 0) p 1 1 [q] [(getCode p, getLibraries p)] he0]
  simp only [Except.map, afterExec, he0, if_true,
    stage3_raise env 2 (getQuestions p) 0 [] e0 ha0,
    stage3_malformed env 1
      (PyVal.str (pyStr (getQuestions p) ++ "\n\nPrevious attempt failed with error: " ++
        last_n_words e0 50)) 1 ([] ++ [getQuestions p]) m ha1 hm,
    stage3_raise env 0
      (PyVal.str (pyStr (getQuestions p) ++ "\n\nPrevious attempt failed with error: " ++
        last_n_words e0 50)) 2
      ([] ++ [getQuestions p] ++
        [PyVal.str (pyStr (getQuestions p) ++ "\n\nPrevious attempt failed with error: " ++
          last_n_words e0 50)]) e2 ha2]
  rfl

/-- Witness for C6 (amended) at the environment whose analysis calls raise,
return a malformed response, then raise. -/
theorem C6_analysis_planning_exhausted_witness :
    analyze (envAnsMixed "E0" "E2") "Q" = Except.ok (Trace.mk ["Q"] [("CODE", ["pandas"])]
      [PyVal.list ["q1"],
       PyVal.str (pyStr (PyVal.list ["q1"]) ++ "\n\nPrevious attempt failed with error: E0"),
       PyVal.str (pyStr (PyVal.list ["q1"]) ++ "\n\nPrevious attempt failed with error: E0")],
      Outcome.analysisPlanningExhausted) ∧
    httpStatus Outcome.analysisPlanningExhausted = 500 ∧
    httpMessage Outcome.analysisPlanningExhausted =
      "Failed to get final answer logic from LLM." :=
  C6_analysis_planning_exhausted (envAnsMixed "E0" "E2") "Q" samplePlan PyObj.nonDict
    "E0" "E2" rfl rfl rfl rfl rfl rfl rfl

/-- C1: the claim of 4 re-planning calls is false.  With an accepted initial
plan, always-failing executions and accepted re-plans, the run makes 4
executions but only 4 planner calls in total — 1 initial planning call plus
3 re-planning calls (one preceding each of executions 2 through 4), not 4
re-planning calls. -/
theorem C1_counterexample :
    analyze envExecAlwaysFail "Q" = Except.ok (Trace.mk
      ["Q",
       "Q\n\nThe previous code failed with this error: bad out. Please provide a corrected version.",
       "Q\n\nThe previous code failed with this error: bad out. Please provide a corrected version.",
       "Q\n\nThe previous code failed with this error: bad out. Please provide a corrected version."]
      [("CODE", ["pandas"]), ("CODE", ["pandas"]), ("CODE", ["pandas"]), ("CODE", ["pandas"])]
      [], Outcome.executionExhausted) ∧
    (["Q",
      "Q\n\nThe previous code failed with this error: bad out. Please provide a corrected version.",
      "Q\n\nThe previous code failed with this error: bad out. Please provide a corrected version.",
      "Q\n\nThe previous code failed with this error: bad out. Please provide a corrected version."]
      : List String).length - 1 = 3 ∧
    (3 : Nat) ≠ 4 := ⟨rfl, rfl, by decide⟩

/-- C1 (amended): if the first planning call yields an accepted plan, every
execution returns a failure outcome, and every re-planning call yields an
accepted plan, the run performs exactly 1 initial execution plus 3 retry
executions (4 executions total), with exactly 3 re-planning calls, one
preceding each of executions 2 through 4 (4 planner calls in total), and
then terminates as the execution-exhausted failure (HTTP 500,
`Failed to execute the generated code.`). -/
theorem C1_execution_exhausted (env : Env) (q : String) (p : PyObj) (rp : Nat → PyObj)
    (h0 : env.planResp 0 = PlanCall.ret p) (hp : isAccepted p = true)
    (hf : ∀ i, execSuccess (env.execResp i) = false)
    (hr : ∀ i, 1 ≤ i → i ≤ 3 → env.planResp i = PlanCall.ret (rp i))
    (hra : ∀ i, isAccepted (rp i) = true) :
    analyze env q = Except.ok (Trace.mk
      [q,
       q ++ "\n\nThe previous code failed with this error: " ++
         last_n_words (pyStr (env.execResp 0).output) 50 ++ ". Please provide a corrected version.",
       q ++ "\n\nThe previous code failed with this error: " ++
         last_n_words (pyStr (env.execResp 1).output) 50 ++ ". Please provide a corrected version.",
       q ++ "\n\nThe previous code failed with this error: " ++
         last_n_words (pyStr (env.execResp 2).output) 50 ++ ". Please provide a corrected version."]
      [(getCode p, getLibraries p), (getCode (rp 1), getLibraries (rp 1)),
       (getCode (rp 2), getLibraries (rp 2)), (getCode (rp 3), getLibraries (rp 3))]
      [], Outcome.executionExhausted) ∧
    httpStatus Outcome.executionExhausted = 500 ∧
    httpMessage Outcome.executionExhausted = "Failed to execute the generated code." := by
  refine ⟨?_, rfl, rfl⟩
  have hA : analyze env q = Except.map (afterExec env)
      (stage2Loop env q 3 (env.execResp 0) p 1 1 [q] [(getCode p, getLibraries p)]) := by
    unfold analyze
    rw [stage1_accept env 2 q 0 [] p h0 hp]
    rfl
  rw [hA]
  rw [stage2Loop_accept env q 2 (env.execResp 0) p 1 1 [q] [(getCode p, getLibraries p)]
    (rp 1) (hf 0) (hr 1 (by omega) (by omega)) (hra 1)]
  rw [stage2Loop_accept env q 1 (env.execResp 1) (rp 1) 2 2 _ _
    (rp 2) (hf 1) (hr 2 (by omega) (by omega)) (hra 2)]
  rw [stage2Loop_accept env q 0 (env.execResp 2) (rp 2) 3 3 _ _
    (rp 3) (hf 2) (hr 3 (by omega) (by omega)) (hra 3)]
  simp only [stage2Loop, Except.map, afterExec, hf 3]
  rfl

/-- Witness for C1 (amended) at the environment with a constant accepted plan
and an always-failing executor. -/
theorem C1_execution_exhausted_witness :
    analyze envExecAlwaysFail "Q2" = Except.ok (Trace.mk
      ["Q2",
       "Q2\n\nThe previous code failed with this error: bad out. Please provide a corrected version.",
       "Q2\n\nThe previous code failed with this error: bad out. Please provide a corrected version.",
       "Q2\n\nThe previous code failed with this error: bad out. Please provide a corrected version."]
      [("CODE", ["pandas"]), ("CODE", ["pandas"]), ("CODE", ["pandas"]), ("CODE", ["pandas"])]
      [], Outcome.executionExhausted) ∧
    httpStatus Outcome.executionExhausted = 500 ∧
    httpMessage Outcome.executionExhausted = "Failed to execute the generated code." :=
  C1_execution_exhausted envExecAlwaysFail "Q2" samplePlan (fun _ => samplePlan)
    rfl rfl (fun _ => rfl) (fun _ _ _ => rfl) (fun _ => rfl)

/-- C2: the claim that each appended digest is the last 25 words is false:
every call site passes 50.  With a first planning call raising a 26-word
error message, the digest appended to the question text is the whole 26-word
message (the last 50 words), which differs from its last 25 words. -/
theorem C2_counterexample :
    (analyze (envDigests s26 "o" "x") "Q").toOption.map (fun tp => tp.1.planArgs.get? 1) =
      Option.some (Option.some
        ("Q" ++ "\n\nPrevious attempt failed with error: " ++ last_n_words s26 50)) ∧
    last_n_words s26 50 = s26 ∧
    last_n_words s26 50 ≠ last_n_words s26 25 := by
  refine ⟨rfl, rfl, by decide⟩

/-- C2 (amended): every error/output digest appended as retry feedback — to
the question text in the first planning stage and in the execution retry
loop, and to the questions value in the analysis stage — consists of the
last 50 words of the stringified error or output, not the last 25. -/
theorem C2_digests_use_50_words (env : Env) (q e1 o e3 d : String) (p1 p2 a : PyObj)
    (h0 : env.planResp 0 = PlanCall.raise e1)
    (h1 : env.planResp 1 = PlanCall.ret p1) (hp1 : isAccepted p1 = true)
    (hx0 : env.execResp 0 = ExecResult.mk (Option.some 0) (PyVal.str o))
    (h2 : env.planResp 2 = PlanCall.ret p2) (hp2 : isAccepted p2 = true)
    (hx1 : execSuccess (env.execResp 1) = true)
    (ha0 : env.ansResp 0 = PlanCall.raise e3)
    (ha1 : env.ansResp 1 = PlanCall.ret a) (haa : isAccepted a = true)
    (hx2 : execSuccess (env.execResp 2) = true)
    (hrf : env.resultFile = ResultFile.valid d) :
    analyze env q = Except.ok (Trace.mk
      [q,
       q ++ "\n\nPrevious attempt failed with error: " ++ last_n_words e1 50,
       q ++ "\n\nPrevious attempt failed with error: " ++ last_n_words e1 50 ++
         "\n\nThe previous code failed with this error: " ++ last_n_words o 50 ++
         ". Please provide a corrected version."]
      [(getCode p1, getLibraries p1), (getCode p2, getLibraries p2), (getCode a, getLibraries a)]
      [getQuestions p2,
       PyVal.str (pyStr (getQuestions p2) ++ "\n\nPrevious attempt failed with error: " ++
         last_n_words e3 50)],
      Outcome.complete d) := by
  have hS1 : stage1 env 3 q 0 [] =
      Stage1Out.mk (q ++ "\n\nPrevious attempt failed with error: " ++ last_n_words e1 50) 2
        [q, q ++ "\n\nPrevious attempt failed with error: " ++ last_n_words e1 50]
        (Option.some p1) := by
    rw [stage1_raise env 2 q 0 [] e1 h0, stage1_accept env 1 _ 1 _ p1 h1 hp1]
    rfl
  have hA : analyze env q = Except.map (afterExec env)
      (stage2Loop env (q ++ "\n\nPrevious attempt failed with error: " ++ last_n_words e1 50) 3
        (env.execResp 0) p1 2 1
        [q, q ++ "\n\nPrevious attempt failed with error: " ++ last_n_words e1 50]
        [(getCode p1, getLibraries p1)]) := by
    unfold analyze
    rw [hS1]
  rw [hA, hx0]
  rw [stage2Loop_accept env
    (q ++ "\n\nPrevious attempt failed with error: " ++ last_n_words e1 50) 2
    (ExecResult.mk (Option.some 0) (PyVal.str o)) p1 2 1 _ _ p2 rfl h2 hp2]
  rw [stage2Loop_success env
    (q ++ "\n\nPrevious attempt failed with error: " ++ last_n_words e1 50) 1
    (env.execResp 1) p2 3 2 _ _ hx1]
  simp only [Except.map, afterExec, hx1, hx2, if_true,
    stage3_raise env 2 (getQuestions p2) 0 [] e3 ha0,
    stage3_accept env 1 (PyVal.str (pyStr (getQuestions p2) ++
      "\n\nPrevious attempt failed with error: " ++ last_n_words e3 50)) 1
      ([] ++ [getQuestions p2]) a ha1 haa,
    hrf]
  rfl

/-- Witness for C2 (amended) at the environment exercising all three digest
sites with error messages `E1`, failing output `OUT` and error `E3`. -/
theorem C2_digests_use_50_words_witness :
    analyze (envDigests "E1" "OUT" "E3") "Q" = Except.ok (Trace.mk
      ["Q",
       "Q\n\nPrevious attempt failed with error: E1",
       "Q\n\nPrevious attempt failed with error: E1\n\nThe previous code failed with this error: OUT. Please provide a corrected version."]
      [("CODE", ["pandas"]), ("CODE", ["pandas"]), ("ACODE", [])]
      [PyVal.list ["q1"],
       PyVal.str (pyStr (PyVal.list ["q1"]) ++ "\n\nPrevious attempt failed with error: E3")],
      Outcome.complete "RESULT") :=
  C2_digests_use_50_words (envDigests "E1" "OUT" "E3") "Q" "E1" "OUT" "E3" "RESULT"
    samplePlan samplePlan sampleAns rfl rfl rfl rfl rfl rfl rfl rfl rfl rfl rfl rfl
